import Mathlib

/-!
Verification development for the OneNote-to-Markdown exporter
(`onenote_exporter.py`).  The Python source is shallowly embedded:
strings are `List Char`, the HTTP world is an explicit outcome function
from attempt numbers to responses, side effects (sleeps, issued
requests) are recorded in an explicit trace, and exceptions are
modelled with `Except` / explicit `raised` results.
-/

namespace OneNote

/-! ## Configuration constants (module-level constants in the source) -/

/-- MAX_RETRIES = 3 in the source. -/
def MAX_RETRIES : Nat := 3

/-- BASE_DELAY = 1 (seconds) in the source. -/
def BASE_DELAY : Nat := 1

/-- The exponential backoff delay used by the source:
BASE_DELAY * (2 ** attempt). -/
def backoff (attempt : Nat) : Nat := BASE_DELAY * 2 ^ attempt

/-! ## Filename sanitization (export_page / export_notebooks)

The source sanitizes every path component with
re.sub(r'[<>:"/\\|?*]', '_', name), and for page titles only,
falls back to "page_" + page_id[:8] when the sanitized title is
falsy after str.strip(). -/

/-- The characters matched by the character class in
re.sub(r'[<>:"/\\|?*]', '_', ...). -/
def illegalFsChars : List Char := ['<', '>', ':', '"', '/', '\\', '|', '?', '*']

/-- Whether a character is illegal in filesystem path components,
per the regular expression character class in the source. -/
def isIllegalFsChar (c : Char) : Bool := illegalFsChars.contains c

/-- Model of re.sub(r'[<>:"/\\|?*]', '_', s): each illegal character is
replaced by an underscore, all other characters are kept. -/
def sanitize (s : List Char) : List Char :=
  s.map (fun c => if isIllegalFsChar c then '_' else c)

/-- ASCII whitespace stripped by Python str.strip(). -/
def isPySpace (c : Char) : Bool := [' ', '\t', '\n', '\r', '\x0b', '\x0c'].contains c

/-- Model of Python str.strip(): remove leading and trailing whitespace. -/
def pyStrip (s : List Char) : List Char :=
  ((s.dropWhile isPySpace).reverse.dropWhile isPySpace).reverse

/-- Model of the page-title logic in export_page (lines 196-199):
safe_title = re.sub(r'[<>:"/\\|?*]', '_', page_title);
if not safe_title.strip(): safe_title = f"page_\x7bpage_id[:8]\x7d". -/
def safe_title (title pageId : List Char) : List Char :=
  let s := sanitize title
  if pyStrip s = [] then "page_".toList ++ pageId.take 8 else s

/-! ## Python int() on strings (used for the Retry-After header) -/

/-- Digit-string to number; `none` when the list is empty or has a
non-digit, mirroring the ValueError raised by Python int(). -/
def digitsToNat (ds : List Char) : Option Nat :=
  if ds = [] then none
  else if ds.all (fun c => c.isDigit) then
    some (ds.foldl (fun acc c => acc * 10 + (c.toNat - '0'.toNat)) 0)
  else none

/-- Model of Python int(s) for strings: strip whitespace, allow one
optional sign, then require a non-empty run of decimal digits.
`none` models the ValueError int() raises on anything else
(e.g. an HTTP-date). -/
def parsePyInt (s : List Char) : Option Int :=
  match pyStrip s with
  | '+' :: rest => (digitsToNat rest).map (fun n => (n : Int))
  | '-' :: rest => (digitsToNat rest).map (fun n => -(n : Int))
  | rest => (digitsToNat rest).map (fun n => (n : Int))

/-! ## The Backoff-Retry Caller (call_graph_with_retry, lines 81-108)

One loop iteration = one attempt = one session.get.  An attempt's
outcome is either a network-level exception (requests raises) or a
received response with a status code, an optional Retry-After header
value, and a (pre-parsed) body.  The body type is abstract: the claims
never depend on JSON parsing itself. -/

/-- Outcome of one session.get call. -/
inductive Outcome (α : Type) where
  | netErr : Outcome α
  | resp (status : Nat) (retryAfter : Option (List Char)) (body : α) : Outcome α
deriving DecidableEq

/-- Python exceptions that can escape call_graph_with_retry. -/
inductive PyError (α : Type) where
  | netError : PyError α
  | httpError (status : Nat) (body : α) : PyError α
  | valueError : PyError α
deriving DecidableEq

/-- How an invocation of call_graph_with_retry ends: a returned JSON
body, a propagated exception, or the implicit `return None` when the
for-loop runs out of iterations. -/
inductive CallResult (α : Type) where
  | success (body : α) : CallResult α
  | raised (e : PyError α) : CallResult α
  | noneReturn : CallResult α
deriving DecidableEq

/-- Observable trace of one invocation: its result, the time.sleep
durations in chronological order, and the number of session.get
requests issued. -/
structure CallTrace (α : Type) where
  result : CallResult α
  sleeps : List Int
  requests : Nat
deriving DecidableEq

/-- The retry loop of call_graph_with_retry, from attempt `a` with
`rem` loop iterations left (`rem = max_retries + 1 - a` at entry).
Per attempt, in source order: a 429 parses Retry-After (defaulting to
the backoff delay), sleeps it and continues — a non-integer header or a
negative sleep raises ValueError uncaught; a status >= 500 sleeps the
backoff delay and continues; raise_for_status raises HTTPError for the
remaining 4xx, which the `except RequestException` arm catches, re-raising
only on the final attempt; other statuses return response.json().
A network error is likewise caught and retried, re-raised on the final
attempt.  When the loop runs out, the function returns None. -/
def runFrom {α : Type} (respond : Nat → Outcome α) (maxR : Nat) :
    Nat → Nat → CallTrace α
  | 0, _ => ⟨.noneReturn, [], 0⟩
  | rem + 1, a =>
    match respond a with
    | .netErr =>
      if a = maxR then ⟨.raised .netError, [], 1⟩
      else
        let t := runFrom respond maxR rem (a + 1)
        ⟨t.result, (backoff a : Int) :: t.sleeps, t.requests + 1⟩
    | .resp status hdr body =>
      if status = 429 then
        match hdr with
        | none =>
          let t := runFrom respond maxR rem (a + 1)
          ⟨t.result, (backoff a : Int) :: t.sleeps, t.requests + 1⟩
        | some s =>
          match parsePyInt s with
          | none => ⟨.raised .valueError, [], 1⟩
          | some n =>
            if n < 0 then ⟨.raised .valueError, [], 1⟩
            else
              let t := runFrom respond maxR rem (a + 1)
              ⟨t.result, n :: t.sleeps, t.requests + 1⟩
      else if 500 ≤ status then
        let t := runFrom respond maxR rem (a + 1)
        ⟨t.result, (backoff a : Int) :: t.sleeps, t.requests + 1⟩
      else if 400 ≤ status then
        if a = maxR then ⟨.raised (.httpError status body), [], 1⟩
        else
          let t := runFrom respond maxR rem (a + 1)
          ⟨t.result, (backoff a : Int) :: t.sleeps, t.requests + 1⟩
      else ⟨.success body, [], 1⟩

/-- call_graph_with_retry(url, max_retries):
`for attempt in range(max_retries + 1): ...` starting at attempt 0. -/
def call_graph_with_retry {α : Type} (respond : Nat → Outcome α)
    (maxR : Nat := MAX_RETRIES) : CallTrace α :=
  runFrom respond maxR (maxR + 1) 0

/-! ## The Paginator (call_graph_paginated, lines 110-121)

A successful Graph call yields a JSON object; the paginator reads
data.get("value", []) and follows "@odata.nextLink" while present.
`fetch` abstracts a call_graph_with_retry invocation that returned a
parsed body; the while-loop is given explicit fuel (the loop in the
source is unbounded), and the number of underlying calls is counted. -/

/-- A parsed Graph listing response: the optional "value" array and the
optional "@odata.nextLink" continuation URL. -/
structure GraphResponse (ρ : Type) where
  value : Option (List ρ)
  nextLink : Option String
deriving DecidableEq

/-- The while-loop of call_graph_paginated: while "@odata.nextLink" is
in the current response, fetch it and extend the accumulator with the
next response's "value" (defaulting to []).  `none` when the fuel runs
out before the chain ends. -/
def pagAux {ρ : Type} (fetch : String → GraphResponse ρ) :
    Nat → GraphResponse ρ → List ρ → Nat → Option (List ρ × Nat)
  | 0, data, acc, calls =>
    match data.nextLink with
    | none => some (acc, calls)
    | some _ => none
  | fuel + 1, data, acc, calls =>
    match data.nextLink with
    | none => some (acc, calls)
    | some link =>
      let d := fetch link
      pagAux fetch fuel d (acc ++ d.value.getD []) (calls + 1)

/-- call_graph_paginated(url): one initial call, then the pagination
loop.  Returns the accumulated records and the number of underlying
calls issued. -/
def call_graph_paginated {ρ : Type} (fetch : String → GraphResponse ρ)
    (url : String) (fuel : Nat) : Option (List ρ × Nat) :=
  let d := fetch url
  pagAux fetch fuel d (d.value.getD []) 1

/-! ## Python str.replace and str.count over List Char

process_html_content rewrites media URLs with html.replace(url, fn),
which replaces every non-overlapping occurrence left to right.  The
scanner below consumes the string one character at a time; after a
match it emits the replacement and skips the remaining length-1
matched characters via the skip counter. -/

/-- Scanner for str.replace with a non-empty pattern `p`: at skip 0,
a position where `p` is a prefix emits `r` and skips the matched
characters; otherwise the character is kept. -/
def replAux (p r : List Char) : Nat → List Char → List Char
  | _, [] => []
  | sk + 1, _ :: t => replAux p r sk t
  | 0, c :: t =>
    if p.isPrefixOf (c :: t) then r ++ replAux p r (p.length - 1) t
    else c :: replAux p r 0 t

/-- Model of Python s.replace(p, r): every non-overlapping occurrence
of `p`, scanned left to right, is replaced by `r`.  An empty pattern
inserts `r` at every position, as Python does. -/
def pyReplace (s p r : List Char) : List Char :=
  if p = [] then r ++ (s.map (fun c => c :: r)).flatten
  else replAux p r 0 s

/-- Scanner for str.count with a non-empty pattern, with the same
left-to-right non-overlapping semantics as `replAux`. -/
def countAux (p : List Char) : Nat → List Char → Nat
  | _, [] => 0
  | sk + 1, _ :: t => countAux p sk t
  | 0, c :: t =>
    if p.isPrefixOf (c :: t) then countAux p (p.length - 1) t + 1
    else countAux p 0 t

/-- Model of Python s.count(p): the number of non-overlapping
occurrences of `p` in `s`, scanned left to right. -/
def countOcc (s p : List Char) : Nat :=
  if p = [] then s.length + 1 else countAux p 0 s

/-! ## The Media Fetcher (download_media, lines 123-152) -/

/-- What the outside world does to one download_media call: either the
streamed GET raises, or a response arrives with a status, a
content-type header value, and the disk write either succeeds or
raises. -/
inductive MediaOutcome where
  | netFail : MediaOutcome
  | resp (status : Nat) (contentType : List Char) (writeFails : Bool) : MediaOutcome
deriving DecidableEq

/-- The segment of `s` after the last occurrence of `sep` (the whole
of `s` when `sep` is absent): used for os.path.basename on URL paths
and for content_type.split('/')[-1]. -/
def lastSegment (sep : Char) (s : List Char) : List Char :=
  (s.reverse.takeWhile (fun c => c ≠ sep)).reverse

/-- Model of urlparse(url).path for the URLs this program sees: the
part after the scheme separator and authority, truncated at a query or
fragment; a URL without "://" is all path. -/
def urlPathOf (url : List Char) : List Char :=
  let rest :=
    match url.dropWhile (fun c => c ≠ ':') with
    | ':' :: '/' :: '/' :: tail => tail.dropWhile (fun c => c ≠ '/')
    | _ => url
  rest.takeWhile (fun c => c ≠ '?' ∧ c ≠ '#')

/-- The body of download_media without the enclosing try/except:
raise_for_status, filename derivation from the URL basename or the
content-type, and the chunked write.  `Except.error` stands for any
exception raised inside the try block; `hashv` abstracts Python's
run-dependent hash(media_url). -/
def download_media_body (media_url : List Char) (hashv : Nat)
    (o : MediaOutcome) : Except Unit (List Char) :=
  match o with
  | .netFail => .error ()
  | .resp status ctype writeFails =>
    if 400 ≤ status then .error ()
    else
      let fn0 := lastSegment '/' (urlPathOf media_url)
      let fn :=
        if fn0 = [] ∨ ¬ '.' ∈ fn0 then
          if countOcc ctype ("image/".toList) ≠ 0 then
            "image_".toList ++ (Nat.toDigits 10 (hashv % 10000)) ++
              '.' :: lastSegment '/' ctype
          else
            "media_".toList ++ (Nat.toDigits 10 (hashv % 10000)) ++ ".bin".toList
        else fn0
      if writeFails then .error () else .ok fn

/-- download_media(media_url, output_path): the try/except wrapper —
any exception in the body is caught and the empty string is returned. -/
def download_media (media_url : List Char) (hashv : Nat)
    (o : MediaOutcome) : List Char :=
  match download_media_body media_url hashv o with
  | .ok fn => fn
  | .error _ => []

/-! ## The Content Transformer substitution loop
(process_html_content, lines 154-178)

The regex scan over the original HTML yields the matched img-src URLs
in order; that extraction (an external regex engine) is abstracted as
the input list `urls`.  For each URL starting with "http" the media is
downloaded; a non-empty returned filename is substituted for every
occurrence of the URL in the evolving HTML.  The html2text conversion
afterwards is external to this model. -/

/-- Whether img_url.startswith('http'). -/
def startsWithHttp (u : List Char) : Bool := ("http".toList).isPrefixOf u

/-- The media-substitution loop of process_html_content. -/
def substituteMedia (download : List Char → List Char)
    (urls : List (List Char)) (html : List Char) : List Char :=
  urls.foldl
    (fun h u =>
      if startsWithHttp u then
        let fn := download u
        if fn = [] then h else pyReplace h u fn
      else h)
    html

/-! ## The per-page exporter and walker loop
(export_page lines 180-212, export_notebooks lines 248-249)

export_page fetches the page HTML, transforms it, derives the safe
title and writes the file — all inside one try/except that logs and
returns on any exception.  The three fallible steps are abstracted as
Except-valued functions; `Except.error` is any raised exception. -/

/-- A OneNote page record: its id and its optional title
(page.get("title", "Untitled")). -/
structure PageRec where
  id : List Char
  title : Option (List Char)
deriving DecidableEq

/-- The body of export_page without the enclosing try/except: fetch
the HTML content, transform it to Markdown, compute the safe title,
write the file. -/
def export_page_body {μ : Type} (fetchContent : PageRec → Except Unit (List Char))
    (transform : List Char → Except Unit μ)
    (writeFile : List Char → μ → Except Unit Unit)
    (p : PageRec) : Except Unit (List Char × μ) := do
  let html ← fetchContent p
  let md ← transform html
  let t := safe_title (p.title.getD ("Untitled".toList)) p.id
  writeFile t md
  pure (t, md)

/-- export_page(page, section_path): the try/except wrapper — any
exception in the body is caught and logged; nothing propagates. -/
def export_page {μ : Type} (fetchContent : PageRec → Except Unit (List Char))
    (transform : List Char → Except Unit μ)
    (writeFile : List Char → μ → Except Unit Unit)
    (p : PageRec) : Option (List Char × μ) :=
  match export_page_body fetchContent transform writeFile p with
  | .ok v => some v
  | .error _ => none

/-- The page loop of export_notebooks:
`for page in pages: self.export_page(page, section_path)` —
every page is visited in order and its (caught) outcome recorded. -/
def export_pages {μ : Type} (fetchContent : PageRec → Except Unit (List Char))
    (transform : List Char → Except Unit μ)
    (writeFile : List Char → μ → Except Unit Unit)
    (pages : List PageRec) : List (PageRec × Option (List Char × μ)) :=
  pages.map (fun p => (p, export_page fetchContent transform writeFile p))

/-! ## Concrete fixtures used by witness theorems -/

/-- Response sequence for the C2 counterexample: the first GET returns
status 404, every later one returns status 200. -/
def c2respond : Nat → Outcome Unit :=
  fun a => if a = 0 then Outcome.resp 404 none () else Outcome.resp 200 none ()

/-- Response sequence for the C4 witness: a 429 with Retry-After 7,
then a 200. -/
def c4respond : Nat → Outcome Unit :=
  fun a =>
    if a = 0 then Outcome.resp 429 (some ("7".toList)) ()
    else Outcome.resp 200 none ()

/-- Fetch function for the C5 witness: page "p1" holds records 10, 20
and links to "p2"; page "p2" holds record 30 and ends the chain. -/
def c5fetch : String → GraphResponse Nat :=
  fun u => if u = "p1" then ⟨some [10, 20], some "p2"⟩ else ⟨some [30], none⟩

/-- Pages for the C8 witness: a good page, a page whose export body
raises, and another good page. -/
def c8pages : List PageRec :=
  [⟨"g1".toList, none⟩, ⟨"bad".toList, none⟩, ⟨"g2".toList, none⟩]

/-- Content fetcher for the C8 witness: raises exactly on the page
with id "bad". -/
def c8fetch : PageRec → Except Unit (List Char) :=
  fun p => if p.id = "bad".toList then Except.error () else Except.ok []

/-- Download function for the C6 witness: returns the local filename
for the known image URL and the failure sentinel otherwise. -/
def c6download : List Char → List Char :=
  fun u => if u = "http://x/i.png".toList then "i.png".toList else []

/-! ## Claims about the Backoff-Retry Caller -/

/-- C1: with MAX_RETRIES = 3, a GET whose responses all have status 500
makes 4 attempts, sleeping 1, 2, 4, 8 seconds (BASE_DELAY * 2^attempt
for attempt 0..3), and then falls out of the for-loop: the function
returns None (the implicit return) instead of raising ApiCallError as
the specification requires, in conflict with its own `-> Dict`
annotation and its caller's use of the result. -/
theorem claim_c1_server_error_returns_none :
    call_graph_with_retry (fun _ => Outcome.resp 500 none ()) MAX_RETRIES =
      ⟨CallResult.noneReturn, [1, 2, 4, 8], 4⟩ := by decide

/-- C2 counterexample: a 404 on the first attempt does NOT fail
immediately — raise_for_status's HTTPError is a RequestException, so
the except arm catches it, sleeps 1 second and retries; the second
attempt's 200 is returned.  2 requests are issued, refuting "no retry
attempts for that URL". -/
theorem claim_c2_counterexample :
    (call_graph_with_retry c2respond MAX_RETRIES).result = CallResult.success () ∧
    (call_graph_with_retry c2respond MAX_RETRIES).requests = 2 ∧
    (call_graph_with_retry c2respond MAX_RETRIES).sleeps = [1] := by decide

/-- C2 amended: a response with a non-2xx status other than 429 and
below 500 (e.g. 404) raises HTTPError in raise_for_status, which the
RequestException handler catches: on a non-final attempt the caller
sleeps base_delay * 2^attempt and retries; only on the final attempt
(attempt = max_retries) does the error propagate, carrying the status
code and body. -/
theorem claim_c2_amended {α : Type} (respond : Nat → Outcome α)
    (maxR rem a status : Nat) (hdr : Option (List Char)) (body : α)
    (hresp : respond a = Outcome.resp status hdr body)
    (h429 : status ≠ 429) (h400 : 400 ≤ status) (h500 : status < 500) :
    (a ≠ maxR → runFrom respond maxR (rem + 1) a =
      ⟨(runFrom respond maxR rem (a + 1)).result,
       (backoff a : Int) :: (runFrom respond maxR rem (a + 1)).sleeps,
       (runFrom respond maxR rem (a + 1)).requests + 1⟩) ∧
    (a = maxR → runFrom respond maxR (rem + 1) a =
      ⟨CallResult.raised (PyError.httpError status body), [], 1⟩) := by
  constructor <;> intro hm
  · simp [runFrom, hresp, h429, hm, Nat.not_le.mpr h500, h400]
  · subst hm
    simp [runFrom, hresp, h429, Nat.not_le.mpr h500, h400]

/-- C2 amended, witnessed at the final attempt of a persistent 404:
the HTTPError propagates with the status code. -/
theorem claim_c2_amended_witness :
    runFrom (fun _ => Outcome.resp 404 none ()) 3 1 3 =
      ⟨CallResult.raised (PyError.httpError 404 ()), [], 1⟩ :=
  (claim_c2_amended (fun _ => Outcome.resp 404 none ()) 3 0 3 404 none () rfl
    (by decide) (by decide) (by decide)).2 rfl

/-- Helper for C4: a retry chain in which every response is a 429 with
either no Retry-After header or one parsing to a non-negative integer
never raises — the loop runs out and returns None. -/
theorem runFrom_all_good429 {α : Type} (respond : Nat → Outcome α)
    (maxR : Nat)
    (h : ∀ i : Nat, ∃ b : α,
      respond i = Outcome.resp 429 none b ∨
      ∃ s : List Char, ∃ n : Nat,
        respond i = Outcome.resp 429 (some s) b ∧ parsePyInt s = some (n : Int)) :
    ∀ rem a, (runFrom respond maxR rem a).result = CallResult.noneReturn := by
  intro rem
  induction rem with
  | zero => intro a; rfl
  | succ r ih =>
    intro a
    obtain ⟨b, hb | ⟨s, n, hs, hn⟩⟩ := h a
    · simp [runFrom, hb, ih]
    · simp [runFrom, hs, hn, Int.not_lt.mpr (Int.natCast_nonneg n), ih]

/-- C4: at any attempt within the budget, a 429 whose Retry-After
header parses as a non-negative integer n makes the caller sleep
exactly n seconds and continue with the next attempt; a 429 with no
header makes it sleep base_delay * 2^attempt and continue; and a call
whose responses are all such 429s never raises (the loop runs out and
the function returns — no exception). -/
theorem claim_c4_rate_limit_sleep {α : Type} (respond : Nat → Outcome α)
    (maxR rem a : Nat) (s : List Char) (n : Nat) (body : α) :
    (respond a = Outcome.resp 429 (some s) body →
      parsePyInt s = some (n : Int) →
      runFrom respond maxR (rem + 1) a =
        ⟨(runFrom respond maxR rem (a + 1)).result,
         (n : Int) :: (runFrom respond maxR rem (a + 1)).sleeps,
         (runFrom respond maxR rem (a + 1)).requests + 1⟩) ∧
    (respond a = Outcome.resp 429 none body →
      runFrom respond maxR (rem + 1) a =
        ⟨(runFrom respond maxR rem (a + 1)).result,
         (backoff a : Int) :: (runFrom respond maxR rem (a + 1)).sleeps,
         (runFrom respond maxR rem (a + 1)).requests + 1⟩) ∧
    ((∀ i : Nat, ∃ b : α,
        respond i = Outcome.resp 429 none b ∨
        ∃ s2 : List Char, ∃ n2 : Nat,
          respond i = Outcome.resp 429 (some s2) b ∧ parsePyInt s2 = some (n2 : Int)) →
      (call_graph_with_retry respond maxR).result = CallResult.noneReturn) := by
  refine ⟨fun h1 h2 => ?_, fun h1 => ?_, fun h => runFrom_all_good429 respond maxR h _ _⟩
  · simp [runFrom, h1, h2, Int.not_lt.mpr (Int.natCast_nonneg n)]
  · simp [runFrom, h1]

/-- C4 witnessed: Retry-After 7 makes the caller sleep exactly 7
seconds and succeed on the next attempt. -/
theorem claim_c4_witness :
    call_graph_with_retry c4respond 3 = ⟨CallResult.success (), [7], 2⟩ := by
  have h := (claim_c4_rate_limit_sleep c4respond 3 3 0 ("7".toList) 7 ()).1
    rfl (by decide)
  calc call_graph_with_retry c4respond 3 = runFrom c4respond 3 4 0 := rfl
    _ = _ := by rw [h]; decide

/-- C9: a 429 whose Retry-After header does not parse as a decimal
integer (e.g. an HTTP-date) makes int() raise ValueError, which no
handler catches: the call raises immediately, with no sleep and no
further attempt. -/
theorem claim_c9_bad_retry_after {α : Type} (respond : Nat → Outcome α)
    (maxR rem a : Nat) (s : List Char) (body : α)
    (hresp : respond a = Outcome.resp 429 (some s) body)
    (hparse : parsePyInt s = none) :
    runFrom respond maxR (rem + 1) a = ⟨CallResult.raised PyError.valueError, [], 1⟩ := by
  simp [runFrom, hresp, hparse]

/-- C9 witnessed on an HTTP-date Retry-After value. -/
theorem claim_c9_witness :
    call_graph_with_retry
        (fun _ => Outcome.resp 429 (some ("Wed, 21 Oct 2015 07:28:00 GMT".toList)) ())
        MAX_RETRIES =
      ⟨CallResult.raised PyError.valueError, [], 1⟩ :=
  claim_c9_bad_retry_after _ MAX_RETRIES MAX_RETRIES 0 _ () rfl (by decide)

/-- Helper for C10: from any attempt, the number of requests issued is
bounded by the remaining loop iterations. -/
theorem runFrom_requests_le {α : Type} (respond : Nat → Outcome α) (maxR : Nat) :
    ∀ rem a, (runFrom respond maxR rem a).requests ≤ rem := by
  intro rem
  induction rem with
  | zero => intro a; exact Nat.le_refl 0
  | succ r ih =>
    intro a
    have hi := ih (a + 1)
    show (runFrom respond maxR (r + 1) a).requests ≤ r + 1
    simp only [runFrom]
    cases respond a with
    | netErr =>
      by_cases h : a = maxR <;> simp [h] <;> omega
    | resp status hdr body =>
      by_cases h429 : status = 429
      · cases hdr with
        | none => simp [h429] <;> omega
        | some s =>
          cases hp : parsePyInt s with
          | none => simp [h429, hp] <;> omega
          | some n =>
            by_cases hn : n < 0 <;> simp [h429, hp, hn] <;> omega
      · by_cases h5 : 500 ≤ status
        · simp [h429, h5] <;> omega
        · by_cases h4 : 400 ≤ status
          · by_cases hm : a = maxR <;> simp [h429, h5, h4, hm] <;> omega
          · simp [h429, h5, h4] <;> omega

/-- C10: every invocation of call_graph_with_retry terminates (it is a
total function of the response sequence) and issues at most
max_retries + 1 GET requests, whatever mix of 429s, server errors,
network failures and other statuses the responses contain. -/
theorem claim_c10_request_bound {α : Type} (respond : Nat → Outcome α) (maxR : Nat) :
    (call_graph_with_retry respond maxR).requests ≤ maxR + 1 :=
  runFrom_requests_le respond maxR (maxR + 1) 0

/-! ## Claim about the Paginator -/

/-- C5: when the first response carries a continuation link to a
second page and the second carries none, call_graph_paginated returns
the first page's records followed by the second page's records, in
response order, having issued exactly 2 underlying calls. -/
theorem claim_c5_pagination {ρ : Type} (fetch : String → GraphResponse ρ)
    (u1 u2 : String) (r1 r2 : List ρ) (fuel : Nat)
    (h1 : fetch u1 = ⟨some r1, some u2⟩)
    (h2 : fetch u2 = ⟨some r2, none⟩)
    (hfuel : 1 ≤ fuel) :
    call_graph_paginated fetch u1 fuel = some (r1 ++ r2, 2) := by
  obtain ⟨f, rfl⟩ : ∃ f, fuel = f + 1 := by
    cases fuel with
    | zero => omega
    | succ f => exact ⟨f, rfl⟩
  simp only [call_graph_paginated, pagAux, h1, h2, Option.getD_some]
  cases f <;> simp [pagAux]

/-- C5 witnessed: the two pages concatenate in order with exactly 2
underlying calls. -/
theorem claim_c5_witness :
    call_graph_paginated c5fetch "p1" 5 = some ([10, 20, 30], 2) :=
  claim_c5_pagination c5fetch "p1" "p2" [10, 20] [30] 5 (by decide) (by decide)
    (by decide)

/-! ## Claims about sanitization -/

/-- C3 counterexample: an all-illegal page title "***" sanitizes to
"___", which str.strip() leaves non-empty, so the code keeps "___" and
does NOT fall back to the identifier-derived name page_<first 8 chars
of id> that the claim promises for all-illegal input. -/
theorem claim_c3_counterexample :
    safe_title ("***".toList) ("1234567890".toList) = "___".toList ∧
    "___".toList ≠ "page_".toList ++ ("1234567890".toList).take 8 := by decide

/-- C3 amended: sanitization is deterministic and total; its result
never contains a character of the illegal set, keeps the input length
(so any non-empty input yields a non-empty result), and the
identifier-derived fallback page_<first 8 chars of id> applies exactly
when the sanitized page title is empty or whitespace-only — an
all-illegal input instead yields a kept, non-empty run of underscores.
The final safe title is never empty.  Notebook and section names use
the same character substitution but have no fallback at all. -/
theorem claim_c3_amended (title pid : List Char) :
    (sanitize title).any isIllegalFsChar = false ∧
    (sanitize title).length = title.length ∧
    (title ≠ [] → sanitize title ≠ []) ∧
    (pyStrip (sanitize title) = [] →
      safe_title title pid = "page_".toList ++ pid.take 8) ∧
    safe_title title pid ≠ [] := by
  refine ⟨?_, ?_, ?_, ?_, ?_⟩
  · rw [sanitize, List.any_map, List.any_eq_false]
    intro c _
    simp only [Function.comp]
    by_cases h : isIllegalFsChar c
    · rw [if_pos h]; decide
    · rw [if_neg h]; simpa using h
  · simp [sanitize]
  · intro ht hm
    exact ht (by simpa [sanitize] using hm)
  · intro h
    simp [safe_title, h]
  · by_cases h : pyStrip (sanitize title) = []
    · simp [safe_title, h]
    · simp only [safe_title, if_neg h]
      intro hx
      exact h (by simp [hx, pyStrip])

/-- C3 amended, witnessed on the spec's own example "a/b:c*d" and on
an empty title. -/
theorem claim_c3_witness :
    sanitize ("a/b:c*d".toList) ≠ [] ∧
    safe_title ("a/b:c*d".toList) ("abcdefghij".toList) ≠ [] ∧
    safe_title [] ("abcdefghij".toList) =
      "page_".toList ++ ("abcdefghij".toList).take 8 :=
  ⟨(claim_c3_amended ("a/b:c*d".toList) ("abcdefghij".toList)).2.2.1 (by decide),
   (claim_c3_amended ("a/b:c*d".toList) ("abcdefghij".toList)).2.2.2.2,
   (claim_c3_amended [] ("abcdefghij".toList)).2.2.2.1 (by decide)⟩

/-! ## Claims about the Media Fetcher and the transform step -/

/-- Helper for C7: when the download of every URL in the list returns
the empty sentinel, the substitution loop leaves the HTML unchanged. -/
theorem substituteMedia_all_empty (download : List Char → List Char) :
    ∀ (urls : List (List Char)) (html : List Char),
      (∀ u ∈ urls, download u = []) → substituteMedia download urls html = html := by
  intro urls
  induction urls with
  | nil => intro html _; rfl
  | cons u us ih =>
    intro html hall
    have hu : download u = [] := hall u (by simp)
    have hrest : ∀ v ∈ us, download v = [] := fun v hv => hall v (by simp [hv])
    by_cases hs : startsWithHttp u <;>
      simpa [substituteMedia, hs, hu] using ih html hrest

/-- C7: download_media never raises.  Any exception inside its body
(network failure, raise_for_status, the disk write) is caught and the
empty-string sentinel is returned; and a download that returns the
sentinel leaves the HTML — hence the emitted Markdown — unchanged, so
the failed URL stays in place and nothing escapes the transform step. -/
theorem claim_c7_download_never_raises (media_url : List Char) (hashv : Nat)
    (o : MediaOutcome) (download : List Char → List Char)
    (urls : List (List Char)) (html : List Char)
    (hfail : download_media_body media_url hashv o = Except.error ())
    (hall : ∀ u ∈ urls, download u = []) :
    download_media media_url hashv o = [] ∧
    substituteMedia download urls html = html := by
  constructor
  · simp [download_media, hfail]
  · exact substituteMedia_all_empty download urls html hall

/-- C7 witnessed: a network failure yields the sentinel, and a
transform whose downloads all fail emits its input unchanged. -/
theorem claim_c7_witness :
    download_media ("http://x/a.png".toList) 42 MediaOutcome.netFail = [] ∧
    substituteMedia (fun _ => []) [("http://x/a.png".toList)]
      ("<img src=http://x/a.png>".toList) = "<img src=http://x/a.png>".toList :=
  claim_c7_download_never_raises ("http://x/a.png".toList) 42 MediaOutcome.netFail
    (fun _ => []) [("http://x/a.png".toList)] ("<img src=http://x/a.png>".toList)
    rfl (fun u _ => rfl)

/-! ## Claim about per-page failure isolation -/

/-- C8: export_page catches every exception of its body (content
fetch, transformation, file write), so a failing page maps to `none`
while the page loop of export_notebooks still visits every other page:
the walk over pages1 ++ [bad page] ++ pages2 produces exactly the
per-page outcomes of pages1, then the logged failure, then the
per-page outcomes of pages2, and every page appears in the output in
order. -/
theorem claim_c8_page_failure_isolated {μ : Type}
    (fetchContent : PageRec → Except Unit (List Char))
    (transform : List Char → Except Unit μ)
    (writeFile : List Char → μ → Except Unit Unit)
    (pages1 pages2 : List PageRec) (p : PageRec)
    (hbad : export_page_body fetchContent transform writeFile p = Except.error ()) :
    export_page fetchContent transform writeFile p = none ∧
    export_pages fetchContent transform writeFile (pages1 ++ p :: pages2) =
      export_pages fetchContent transform writeFile pages1 ++
        (p, none) :: export_pages fetchContent transform writeFile pages2 ∧
    (export_pages fetchContent transform writeFile (pages1 ++ p :: pages2)).map
        Prod.fst = pages1 ++ p :: pages2 := by
  have h1 : export_page fetchContent transform writeFile p = none := by
    simp [export_page, hbad]
  refine ⟨h1, ?_, ?_⟩
  · simp [export_pages, h1]
  · have hid : (Prod.fst ∘ fun q : PageRec =>
        (q, export_page fetchContent transform writeFile q)) = id := rfl
    simp [export_pages, List.map_map, hid]

/-- C8 witnessed: the failing middle page is logged as `none` and both
neighbours still export. -/
theorem claim_c8_witness :
    export_pages c8fetch (fun _ => Except.ok ()) (fun _ _ => Except.ok ()) c8pages =
      [(⟨"g1".toList, none⟩, some ("Untitled".toList, ())),
       (⟨"bad".toList, none⟩, none),
       (⟨"g2".toList, none⟩, some ("Untitled".toList, ()))] := by
  have h := (claim_c8_page_failure_isolated c8fetch (fun _ => Except.ok ())
    (fun _ _ => Except.ok ()) [⟨"g1".toList, none⟩] [⟨"g2".toList, none⟩]
    ⟨"bad".toList, none⟩ rfl).2.1
  exact h.trans (by decide)

/-! ## String-replacement lemmas for the media substitution claim

The scanners `replAux` and `countAux` share their control structure;
the lemmas below characterise them on a region with no occurrence of
the pattern, at an occurrence, and on an occurrence-free remainder. -/

/-- An occurrence inside `s` is an occurrence inside `c :: s`. -/
theorem isInfix_cons_right {l s : List Char} (c : Char) (h : l <:+: s) :
    l <:+: c :: s := by
  obtain ⟨u, v, huv⟩ := h
  exact ⟨c :: u, v, by rw [← huv]; simp⟩

/-- A pattern occurrence starting inside the region `a` of `a ++ rest`
lies inside `a ++ rest.take (p.length - 1)`. -/
theorem occurrence_in_head_region (p a rest : List Char) (ha : a ≠ [])
    (hpre : p <+: a ++ rest) : p <+: a ++ rest.take (p.length - 1) := by
  have heq : p = (a ++ rest).take p.length := List.prefix_iff_eq_take.mp hpre
  by_cases hn : p.length ≤ a.length
  · have hpa : p <+: a := by
      conv_lhs => rw [heq]
      rw [List.take_append_of_le_length hn]
      exact List.take_prefix _ _
    exact hpa.trans (List.prefix_append a _)
  · have hlen : a.length ≤ p.length := Nat.le_of_lt (Nat.lt_of_not_le hn)
    have hp2 : p = a ++ rest.take (p.length - a.length) := by
      conv_lhs => rw [heq]
      rw [List.take_append_eq_append_take, List.take_of_length_le hlen]
    have h1 : 1 ≤ a.length := by
      cases a with
      | nil => exact absurd rfl ha
      | cons _ _ => simp
    have hm : p.length - a.length ≤ p.length - 1 := by omega
    have hmono : rest.take (p.length - a.length) <+: rest.take (p.length - 1) := by
      rw [show rest.take (p.length - a.length)
            = (rest.take (p.length - 1)).take (p.length - a.length) from by
          rw [List.take_take, Nat.min_eq_left hm]]
      exact List.take_prefix _ _
    conv_lhs => rw [hp2]
    exact (List.prefix_append_right_inj a).mpr hmono

/-- A positive skip counter just drops characters. -/
theorem replAux_skip (p r : List Char) :
    ∀ (k : Nat) (s : List Char), replAux p r k s = replAux p r 0 (s.drop k) := by
  intro k
  induction k with
  | zero => intro s; simp
  | succ n ih =>
    intro s
    cases s with
    | nil => simp [replAux]
    | cons c t => simpa [replAux] using ih t

/-- Scanning through a region in which no occurrence of the pattern
starts copies it verbatim. -/
theorem replAux_scan (p r : List Char) (hp : p ≠ []) :
    ∀ (a rest : List Char), ¬ p <:+: (a ++ rest.take (p.length - 1)) →
      replAux p r 0 (a ++ rest) = a ++ replAux p r 0 rest := by
  intro a
  induction a with
  | nil => intro rest _; simp
  | cons c a' ih =>
    intro rest h
    have hnp : ¬ p <+: (c :: a') ++ rest := fun hpre =>
      h ((occurrence_in_head_region p (c :: a') rest (by simp) hpre).isInfix)
    have hstep : replAux p r 0 (c :: (a' ++ rest))
        = c :: replAux p r 0 (a' ++ rest) := by
      simp only [replAux]
      rw [if_neg (by simpa using hnp)]
    have hh : ¬ p <:+: (a' ++ rest.take (p.length - 1)) := fun hin =>
      h (isInfix_cons_right c hin)
    rw [List.cons_append, hstep, ih rest hh]
    rfl

/-- At an occurrence of the pattern, the scanner emits the replacement
and consumes the whole match. -/
theorem replAux_head_match (p r rest : List Char) (hp : p ≠ []) :
    replAux p r 0 (p ++ rest) = r ++ replAux p r 0 rest := by
  cases p with
  | nil => exact absurd rfl hp
  | cons p0 p' =>
    show replAux (p0 :: p') r 0 (p0 :: (p' ++ rest)) = _
    simp only [replAux]
    rw [if_pos (by simp)]
    rw [replAux_skip]
    simp [List.drop_left]

/-- A string with no occurrence of the pattern is left unchanged. -/
theorem replAux_no_occurrence (p r s : List Char) (hp : p ≠ [])
    (h : ¬ p <:+: s) : replAux p r 0 s = s := by
  have hh : ¬ p <:+: (s ++ ([] : List Char).take (p.length - 1)) := by
    simpa using h
  have := replAux_scan p r hp s [] hh
  simpa [replAux] using this

/-- Counting twin of `replAux_skip`. -/
theorem countAux_skip (p : List Char) :
    ∀ (k : Nat) (s : List Char), countAux p k s = countAux p 0 (s.drop k) := by
  intro k
  induction k with
  | zero => intro s; simp
  | succ n ih =>
    intro s
    cases s with
    | nil => simp [countAux]
    | cons c t => simpa [countAux] using ih t

/-- Counting twin of `replAux_scan`: a region in which no occurrence
starts contributes no occurrences. -/
theorem countAux_scan (p : List Char) (hp : p ≠ []) :
    ∀ (a rest : List Char), ¬ p <:+: (a ++ rest.take (p.length - 1)) →
      countAux p 0 (a ++ rest) = countAux p 0 rest := by
  intro a
  induction a with
  | nil => intro rest _; simp
  | cons c a' ih =>
    intro rest h
    have hnp : ¬ p <+: (c :: a') ++ rest := fun hpre =>
      h ((occurrence_in_head_region p (c :: a') rest (by simp) hpre).isInfix)
    have hstep : countAux p 0 (c :: (a' ++ rest)) = countAux p 0 (a' ++ rest) := by
      simp only [countAux]
      rw [if_neg (by simpa using hnp)]
    have hh : ¬ p <:+: (a' ++ rest.take (p.length - 1)) := fun hin =>
      h (isInfix_cons_right c hin)
    rw [List.cons_append, hstep, ih rest hh]

/-- Counting twin of `replAux_head_match`. -/
theorem countAux_head_match (p rest : List Char) (hp : p ≠ []) :
    countAux p 0 (p ++ rest) = countAux p 0 rest + 1 := by
  cases p with
  | nil => exact absurd rfl hp
  | cons p0 p' =>
    show countAux (p0 :: p') 0 (p0 :: (p' ++ rest)) = _
    simp only [countAux]
    rw [if_pos (by simp)]
    rw [countAux_skip]
    simp [List.drop_left]

/-- Counting twin of `replAux_no_occurrence`. -/
theorem countAux_no_occurrence (p s : List Char) (hp : p ≠ [])
    (h : ¬ p <:+: s) : countAux p 0 s = 0 := by
  have hh : ¬ p <:+: (s ++ ([] : List Char).take (p.length - 1)) := by
    simpa using h
  have := countAux_scan p hp s [] hh
  simpa [countAux] using this

/-- C6: an HTML body of shape a ++ url ++ b ++ url ++ c — the same
absolute http(s) image URL referenced twice, with no stray overlaps
of the URL or of the local filename f — is transformed by the
substitution loop (both regex matches of the URL, one successful
download yielding f) into a ++ f ++ b ++ f ++ c: a global textual
replacement after which the original URL occurs 0 times and f occurs
exactly 2 times, both references resolving to the one local file. -/
theorem claim_c6_media_substitution (a b c url f : List Char)
    (hu : url ≠ []) (hf : f ≠ [])
    (h1 : ¬ url <:+: (a ++ url.take (url.length - 1)))
    (h2 : ¬ url <:+: (b ++ url.take (url.length - 1)))
    (h3 : ¬ url <:+: c)
    (h4 : ¬ url <:+: (a ++ f ++ b ++ f ++ c))
    (h5 : ¬ f <:+: (a ++ f.take (f.length - 1)))
    (h6 : ¬ f <:+: (b ++ f.take (f.length - 1)))
    (h7 : ¬ f <:+: c)
    (hhttp : startsWithHttp url = true)
    (download : List Char → List Char) (hdl : download url = f) :
    substituteMedia download [url, url] (a ++ url ++ b ++ url ++ c)
      = a ++ f ++ b ++ f ++ c ∧
    countOcc (a ++ f ++ b ++ f ++ c) url = 0 ∧
    countOcc (a ++ f ++ b ++ f ++ c) f = 2 := by
  have htailu : (url ++ (b ++ (url ++ c))).take (url.length - 1)
      = url.take (url.length - 1) := by
    rw [List.take_append_eq_append_take,
      Nat.sub_eq_zero_of_le (Nat.sub_le url.length 1), List.take_zero,
      List.append_nil]
  have htailu2 : (url ++ c).take (url.length - 1) = url.take (url.length - 1) := by
    rw [List.take_append_eq_append_take,
      Nat.sub_eq_zero_of_le (Nat.sub_le url.length 1), List.take_zero,
      List.append_nil]
  have htailf : (f ++ (b ++ (f ++ c))).take (f.length - 1)
      = f.take (f.length - 1) := by
    rw [List.take_append_eq_append_take,
      Nat.sub_eq_zero_of_le (Nat.sub_le f.length 1), List.take_zero,
      List.append_nil]
  have htailf2 : (f ++ c).take (f.length - 1) = f.take (f.length - 1) := by
    rw [List.take_append_eq_append_take,
      Nat.sub_eq_zero_of_le (Nat.sub_le f.length 1), List.take_zero,
      List.append_nil]
  have hrepl : pyReplace (a ++ (url ++ (b ++ (url ++ c)))) url f
      = a ++ (f ++ (b ++ (f ++ c))) := by
    rw [pyReplace, if_neg hu]
    rw [replAux_scan url f hu a (url ++ (b ++ (url ++ c))) (by rw [htailu]; exact h1)]
    rw [replAux_head_match url f (b ++ (url ++ c)) hu]
    rw [replAux_scan url f hu b (url ++ c) (by rw [htailu2]; exact h2)]
    rw [replAux_head_match url f c hu]
    rw [replAux_no_occurrence url f c hu h3]
  have h4' : ¬ url <:+: (a ++ (f ++ (b ++ (f ++ c)))) := by
    simpa [List.append_assoc] using h4
  have hfix : pyReplace (a ++ (f ++ (b ++ (f ++ c)))) url f
      = a ++ (f ++ (b ++ (f ++ c))) := by
    rw [pyReplace, if_neg hu]
    exact replAux_no_occurrence url f _ hu h4'
  refine ⟨?_, ?_, ?_⟩
  · show substituteMedia download [url, url] (a ++ url ++ b ++ url ++ c)
      = a ++ f ++ b ++ f ++ c
    simp only [substituteMedia, List.foldl_cons, List.foldl_nil, hhttp, if_true,
      hdl, if_neg hf]
    simp only [List.append_assoc] at *
    rw [hrepl, hfix]
  · rw [countOcc, if_neg hu]
    simp only [List.append_assoc]
    exact countAux_no_occurrence url _ hu h4'
  · rw [countOcc, if_neg hf]
    simp only [List.append_assoc]
    rw [countAux_scan f hf a (f ++ (b ++ (f ++ c))) (by rw [htailf]; exact h5)]
    rw [countAux_head_match f (b ++ (f ++ c)) hf]
    rw [countAux_scan f hf b (f ++ c) (by rw [htailf2]; exact h6)]
    rw [countAux_head_match f c hf]
    rw [countAux_no_occurrence f c hf h7]

/-- C6 witnessed: the HTML "A http://x/i.png B http://x/i.png C" with
one successful download to "i.png" becomes "A i.png B i.png C" with 0
occurrences of the URL and 2 of the filename. -/
theorem claim_c6_witness :
    substituteMedia c6download
        [("http://x/i.png".toList), ("http://x/i.png".toList)]
        ("A ".toList ++ "http://x/i.png".toList ++ " B ".toList ++
          "http://x/i.png".toList ++ " C".toList)
      = "A ".toList ++ "i.png".toList ++ " B ".toList ++ "i.png".toList ++
          " C".toList ∧
    countOcc ("A ".toList ++ "i.png".toList ++ " B ".toList ++ "i.png".toList ++
        " C".toList) ("http://x/i.png".toList) = 0 ∧
    countOcc ("A ".toList ++ "i.png".toList ++ " B ".toList ++ "i.png".toList ++
        " C".toList) ("i.png".toList) = 2 :=
  claim_c6_media_substitution ("A ".toList) (" B ".toList) (" C".toList)
    ("http://x/i.png".toList) ("i.png".toList)
    (by decide) (by decide) (by decide) (by decide) (by decide) (by decide)
    (by decide) (by decide) (by decide) (by decide) c6download (by decide)

end OneNote
